import Mathlib

/-
  Shallow embedding of the Tourist Monitoring System (SafeTravel NE).

  The embedded modules are the mobile client services that implement the
  location/alerting pipeline:
    - services/location.ts           (getCurrentLocation, logLocation)
    - services/locationTracking.ts   (tracking state, getCurrentLocation,
                                      getLastKnownLocation, logLocationToDatabase,
                                      checkForHazards, getBatteryLevel, getNetworkType)
    - services/notifications.ts      (createSafetyAlert, createGeofenceAlert,
                                      createHazardAlert)
    - services/emergency.ts          (triggerPanicAlert, getAlertTitle, getAlertMessage)
    - RegisterScreen handleRegister  (initial safety score at registration)
    - complete_project_overview.md   (tourist_safety_score_weights system setting)

  Database tables (location_logs, notifications, alerts) are modelled as lists of
  rows; a supabase insert is an append, and a failing insert or position request
  is an explicit Except/Option argument so every effectful call site is total.
  Coordinates are exact rationals, timestamps are epoch integers.
-/

namespace TouristMonitoring

/-- Coordinate payload of an expo Location.LocationObject as consumed by the
services (coords.latitude, coords.longitude, optional altitude/accuracy/speed). -/
structure Coords where
  latitude : ℚ
  longitude : ℚ
  altitude : Option ℚ
  accuracy : Option ℚ
  speed : Option ℚ
deriving DecidableEq, Repr

/-- The expo Location.LocationObject shape used by locationTracking.ts and
emergency.ts: a coords record plus a capture timestamp (epoch milliseconds). -/
structure LocationObject where
  coords : Coords
  timestamp : Int
deriving DecidableEq, Repr

/-- LocationData from services/location.ts: the flat coordinate record that
logLocation receives. -/
structure LocationData where
  latitude : ℚ
  longitude : ℚ
  altitude : Option ℚ
  accuracy : Option ℚ
  speed : Option ℚ
deriving DecidableEq, Repr

/-- A geofence row from the geofences table (complete_project_overview.md):
a name, a type column (danger, restricted, safe, tourist_zone, emergency,
weather, wildlife), a risk_level between 1 and 5, and an active flag. -/
structure Geofence where
  name : String
  type : String
  risk_level : Int
  active : Bool
deriving DecidableEq, Repr

/-- A hazard row as queried by checkForHazards (only its status is relevant). -/
structure Hazard where
  status : String
deriving DecidableEq, Repr

/-- A row of the location_logs table as inserted by logLocationToDatabase and
logLocation. -/
structure LocationLogRow where
  tourist_id : String
  latitude : ℚ
  longitude : ℚ
  altitude : Option ℚ
  accuracy : Option ℚ
  speed : Option ℚ
  battery_level : Option Int
  network_type : Option String
  timestamp : Int
deriving DecidableEq, Repr

/- ===== services/locationTracking.ts ===== -/

/-- The module-level trackingState object of locationTracking.ts. -/
structure LocationTrackingState where
  isTracking : Bool
  touristId : Option String
  lastLocation : Option LocationObject
deriving DecidableEq, Repr

/-- Embeds getCurrentLocation of locationTracking.ts. The underlying
Location.getCurrentPositionAsync outcome is the posResult argument. On success
the fresh location is stored in trackingState.lastLocation and returned; on
failure the error is swallowed (console.error) and the cached
trackingState.lastLocation is returned, the state unchanged. -/
def getCurrentLocation (posResult : Except String LocationObject)
    (st : LocationTrackingState) : Option LocationObject × LocationTrackingState :=
  match posResult with
  | Except.ok location => (some location, { st with lastLocation := some location })
  | Except.error _ => (st.lastLocation, st)

/-- Embeds getLastKnownLocation of locationTracking.ts. -/
def getLastKnownLocation (st : LocationTrackingState) : Option LocationObject :=
  st.lastLocation

/-- Embeds getBatteryLevel of locationTracking.ts: returns null for now. -/
def getBatteryLevel : Option Int := none

/-- Embeds getNetworkType of locationTracking.ts: returns null for now. -/
def getNetworkType : Option String := none

/-- The locationData record built by logLocationToDatabase from a tourist id and
a LocationObject (battery_level and network_type come from the stub helpers,
the timestamp comes from the fix itself). -/
def locationRow (touristId : String) (location : LocationObject) : LocationLogRow :=
  { tourist_id := touristId
    latitude := location.coords.latitude
    longitude := location.coords.longitude
    altitude := location.coords.altitude
    accuracy := location.coords.accuracy
    speed := location.coords.speed
    battery_level := getBatteryLevel
    network_type := getNetworkType
    timestamp := location.timestamp }

/-- Embeds logLocationToDatabase of locationTracking.ts: builds locationData and
inserts it into location_logs unconditionally. There is no comparison against
previously logged timestamps for the tourist. -/
def logLocationToDatabase (db : List LocationLogRow) (touristId : String)
    (location : LocationObject) : List LocationLogRow :=
  db ++ [locationRow touristId location]

/- ===== system settings (complete_project_overview.md) ===== -/

/-- Shape of the tourist_safety_score_weights system setting. -/
structure SafetyScoreWeights where
  location_risk : ℚ
  weather : ℚ
  group_size : ℚ
  time_of_day : ℚ
  route_deviation : ℚ
deriving DecidableEq, Repr

/-- The default tourist_safety_score_weights row inserted into system_settings
by the schema in complete_project_overview.md. -/
def tourist_safety_score_weights : SafetyScoreWeights :=
  { location_risk := 0.3
    weather := 0.2
    group_size := 0.2
    time_of_day := 0.15
    route_deviation := 0.15 }

/- ===== RegisterScreen handleRegister ===== -/

/-- The safety_score field of the touristData record inserted by handleRegister
in RegisterScreen (the initial value assigned at registration). -/
def handleRegisterSafetyScore : Int := 50

/- ===== Risk Scorer (spec section 4.4) ===== -/

/-- Modelled from the spec: no safety-score update code exists in the
repository (the Risk Scorer component is missing; checkForHazards performs no
score update), so the per-update step bound of spec section 4.4 is taken as the
configured maximum step of 10 points. -/
def maxScoreStep : Int := 10

/-- Modelled from the spec: the defensive clamp of the Risk Scorer, keeping a
safety score within the interval from 0 to 100 after each update. -/
def clampScore (x : Int) : Int := max 0 (min 100 x)

/-- Modelled from the spec: the score moves from its current value toward the
target computed from current signals by at most maxStep points per update. -/
def stepToward (current target maxStep : Int) : Int :=
  if current < target then min target (current + maxStep)
  else max target (current - maxStep)

/-- Modelled from the spec: updateScore of the missing Risk Scorer, moving the
current score toward the target by a bounded step and clamping to the interval
from 0 to 100. -/
def updateScore (current target : Int) : Int :=
  clampScore (stepToward current target maxScoreStep)

/-- The sequence of scores a tourist holds after each update, starting from
start and applying updateScore once per target signal. -/
def scoreTrace (start : Int) (targets : List Int) : List Int :=
  match targets with
  | [] => []
  | t :: ts =>
      let s := updateScore start t
      s :: scoreTrace s ts

/- ===== services/location.ts ===== -/

/-- The row built by logLocation in services/location.ts: the coordinate fields
of the submitted LocationData plus a wall-clock timestamp taken at insertion
time (new Date in the source); battery_level and network_type are not supplied
by this insert and default to null. -/
def logLocationRow (touristId : String) (locationData : LocationData)
    (now : Int) : LocationLogRow :=
  { tourist_id := touristId
    latitude := locationData.latitude
    longitude := locationData.longitude
    altitude := locationData.altitude
    accuracy := locationData.accuracy
    speed := locationData.speed
    battery_level := none
    network_type := none
    timestamp := now }

/-- Embeds logLocation of services/location.ts: inserts the row into
location_logs unconditionally on every call. -/
def logLocation (db : List LocationLogRow) (touristId : String)
    (locationData : LocationData) (now : Int) : List LocationLogRow :=
  db ++ [logLocationRow touristId locationData now]

/-- The client-visible database state touched when a location fix is
submitted through the watchPositionAsync callback of services/location.ts. -/
structure ClientState where
  location_logs : List LocationLogRow
  notifications_sent : Nat
deriving DecidableEq, Repr

/-- Embeds the watchPositionAsync callback of startLocationTracking in
services/location.ts: submitting a fix calls logLocation and nothing else, so
the location log grows by one row and no notification or transition event is
produced. -/
def submitFix (st : ClientState) (touristId : String)
    (locationData : LocationData) (now : Int) : ClientState :=
  { st with location_logs := logLocation st.location_logs touristId locationData now }

/- ===== services/notifications.ts ===== -/

/-- Renders a rational coordinate or distance for an alert message body. -/
def ratText (q : ℚ) : String :=
  toString q.num ++ "/" ++ toString q.den

/-- The additionalData payload passed to createSafetyAlert by the three alert
constructors in services/notifications.ts. -/
inductive AlertPayload where
  | geofence (geofenceName geofenceType action : String)
  | hazard (hazardTitle hazardType severity : String) (distance : ℚ)
  | weather (weatherType severity : String)
  | plain
deriving DecidableEq, Repr

/-- A row of the notifications table as inserted by createSafetyAlert. -/
structure NotificationRow where
  tourist_id : String
  type : String
  title : String
  message : String
  priority : String
  status : String
  location : Option (ℚ × ℚ)
  payload : AlertPayload
deriving DecidableEq, Repr

/-- Embeds createSafetyAlert of services/notifications.ts. The loc argument is
the outcome of the getCurrentLocation call from services/location.ts, which
returns the flat LocationData record (it has no coords field). When loc is
non-null the source reads location.coords.latitude while building the
data.location payload, so the member access on the undefined coords property
throws a TypeError inside the try block; the catch rethrows it and no row is
stored. Only when loc is null does the insert run: data.location is null,
insertOk mirrors whether the supabase insert reports an error (on error the
function throws), and on success the new notification row, in status pending,
is appended to the notifications table. -/
def createSafetyAlert (insertOk : Bool) (db : List NotificationRow)
    (loc : Option LocationData) (touristId alertType title message priority : String)
    (payload : AlertPayload) : Except String (List NotificationRow) :=
  match loc with
  | some _ => Except.error "TypeError: location.coords is undefined"
  | none =>
      let notificationData : NotificationRow :=
        { tourist_id := touristId
          type := alertType
          title := title
          message := message
          priority := priority
          status := "pending"
          location := none
          payload := payload }
      if insertOk then Except.ok (db ++ [notificationData])
      else Except.error "insert error"

/-- Embeds createGeofenceAlert of services/notifications.ts: builds the title
and message from the action and geofence, chooses priority high exactly for a
restricted geofence type and normal otherwise, and delegates to
createSafetyAlert with type geofence. -/
def createGeofenceAlert (insertOk : Bool) (db : List NotificationRow)
    (loc : Option LocationData) (touristId geofenceName geofenceType action : String) :
    Except String (List NotificationRow) :=
  let title := "Geofence " ++ (if action == "entered" then "Entry" else "Exit")
  let message := "You have " ++ action ++ " " ++ geofenceName
      ++ " (" ++ geofenceType ++ " zone)"
  let priority := if geofenceType == "restricted" then "high" else "normal"
  createSafetyAlert insertOk db loc touristId "geofence" title message priority
    (AlertPayload.geofence geofenceName geofenceType action)

/-- Embeds createHazardAlert of services/notifications.ts: maps the hazard
severity string high to priority critical, medium to high and anything else to
normal, builds the message with the interpolated distance, and delegates to
createSafetyAlert with type hazard. -/
def createHazardAlert (insertOk : Bool) (db : List NotificationRow)
    (loc : Option LocationData) (touristId hazardTitle hazardType severity : String)
    (distance : ℚ) : Except String (List NotificationRow) :=
  let title := "Hazard Alert: " ++ hazardTitle
  let message := hazardType ++ " detected " ++ ratText distance
      ++ "km from your location. Severity: " ++ severity
  let priority :=
    if severity == "high" then "critical"
    else if severity == "medium" then "high"
    else "normal"
  createSafetyAlert insertOk db loc touristId "hazard" title message priority
    (AlertPayload.hazard hazardTitle hazardType severity distance)

/-- Tests whether a notification row carries the dedup key of a geofence
transition alert: same tourist, same zone name, same transition action. -/
def matchesDedupKey (touristId zoneName action : String)
    (r : NotificationRow) : Bool :=
  r.tourist_id == touristId
    && (match r.payload with
        | AlertPayload.geofence n _ a => n == zoneName && a == action
        | _ => false)

/-- Counts the active (non-resolved) alerts for a given (tourist, zone,
transition-type) dedup key in the notifications table. -/
def activeAlertCount (db : List NotificationRow)
    (touristId zoneName action : String) : Nat :=
  (db.filter (fun r =>
    matchesDedupKey touristId zoneName action r && !(r.status == "resolved"))).length

/- ===== checkForHazards (services/locationTracking.ts) ===== -/

/-- The branch checkForHazards ends in: an early return on either query error,
or the checked branch that only logs the fix coordinates. -/
inductive HazardCheckOutcome where
  | geofenceQueryError
  | hazardQueryError
  | checked (loggedLatitude loggedLongitude : ℚ)
deriving DecidableEq, Repr

/-- The observable effect of a checkForHazards call: which branch ran, and the
alerts it created. -/
structure HazardCheckEffect where
  outcome : HazardCheckOutcome
  alertsCreated : List NotificationRow
deriving DecidableEq, Repr

/-- Embeds checkForHazards of services/locationTracking.ts: it queries the
active geofences and active hazards, returns early on a query error, and in the
remaining branch only logs that the check was performed; no geofence
intersection is computed and no alert is created in any branch. -/
def checkForHazards (geofencesQuery : Except String (List Geofence))
    (hazardsQuery : Except String (List Hazard)) (location : LocationObject) :
    HazardCheckEffect :=
  match geofencesQuery with
  | Except.error _ => { outcome := HazardCheckOutcome.geofenceQueryError, alertsCreated := [] }
  | Except.ok _ =>
      match hazardsQuery with
      | Except.error _ => { outcome := HazardCheckOutcome.hazardQueryError, alertsCreated := [] }
      | Except.ok _ =>
          { outcome := HazardCheckOutcome.checked
              location.coords.latitude location.coords.longitude
            alertsCreated := [] }

/-- Follows the words of the spec (Alert Dispatcher, section 4.5): entry into a
zone with risk level at or above the configured threshold, or into a restricted
or danger category zone, must produce an alert. Stated for comparison with the
embedded code. -/
def specRequiresAlertOnEntry (threshold : Int) (z : Geofence) : Bool :=
  decide (threshold ≤ z.risk_level) || z.type == "restricted" || z.type == "danger"

/-- Follows the words of the spec (severity mapping, section 4.5): risk level 5
maps to critical, 4 to high, 3 to medium, and 2 or below to low. Stated for
comparison with the embedded code. -/
def specSeverityOfRisk (r : Int) : String :=
  if r == 5 then "critical"
  else if r == 4 then "high"
  else if r == 3 then "medium"
  else "low"

/- ===== services/emergency.ts ===== -/

/-- A row of the alerts table as inserted by triggerPanicAlert. -/
structure EmergencyAlertRow where
  tourist_id : String
  type : String
  latitude : ℚ
  longitude : ℚ
  title : String
  message : String
  severity : String
  priority : Int
  status : String
deriving DecidableEq, Repr

/-- Embeds getAlertTitle of services/emergency.ts. -/
def getAlertTitle (type : String) : String :=
  match type with
  | "panic" => "🚨 EMERGENCY ALERT"
  | "medical" => "🏥 MEDICAL EMERGENCY"
  | "security" => "🛡️ SECURITY ALERT"
  | "natural_disaster" => "🌪️ NATURAL DISASTER ALERT"
  | _ => "⚠️ EMERGENCY ALERT"

/-- Embeds getAlertMessage of services/emergency.ts: the per-type message body
followed by the current coordinates. -/
def getAlertMessage (type : String) (lat lng : ℚ) : String :=
  let locationStr := "Location: " ++ ratText lat ++ ", " ++ ratText lng
  match type with
  | "panic" =>
      "Tourist has triggered a panic alert and requires immediate assistance. " ++ locationStr
  | "medical" => "Tourist requires immediate medical assistance. " ++ locationStr
  | "security" => "Tourist is in a potentially dangerous security situation. " ++ locationStr
  | "natural_disaster" => "Tourist is affected by a natural disaster and needs help. " ++ locationStr
  | _ => "Tourist requires emergency assistance. " ++ locationStr

/-- The emergencyAlert record literal as written in triggerPanicAlert, with the
coordinate reads taken from the flat LocationData fields the source intends to
use: severity critical, priority 1 and status active for every alert type. In
the source the record construction reads location.coords.latitude instead and
throws before this record ever exists, so it is never inserted. -/
def intendedEmergencyAlert (touristId alertType : String)
    (locationData : LocationData) : EmergencyAlertRow :=
  { tourist_id := touristId
    type := alertType
    latitude := locationData.latitude
    longitude := locationData.longitude
    title := getAlertTitle alertType
    message := getAlertMessage alertType locationData.latitude locationData.longitude
    severity := "critical"
    priority := 1
    status := "active" }

/-- Embeds triggerPanicAlert of services/emergency.ts. The locationResult
argument is the outcome of getCurrentLocation from services/location.ts, which
returns the flat LocationData record (it has no coords field). When the result
is null the function throws the explicit Unable-to-get-current-location error
before touching the database. When a location is obtained, building the
emergencyAlert record reads location.coords.latitude on the flat record, so the
member access on the undefined coords property throws a TypeError inside the
try block; the catch rethrows it, and the insert below is never reached. No
branch stores a row, so the function never returns normally. -/
def triggerPanicAlert (locationResult : Option LocationData) (insertOk : Bool)
    (db : List EmergencyAlertRow) (touristId alertType : String) :
    Except String (EmergencyAlertRow × List EmergencyAlertRow) :=
  match locationResult with
  | none => Except.error "Unable to get current location"
  | some _ => Except.error "TypeError: location.coords is undefined"

/- ===== concrete fixtures for counterexamples ===== -/

/-- The restricted zone of the spec scenario: a risk level 5 restricted area
around latitude 26.18, longitude 91.74, active. -/
def zoneZ : Geofence :=
  { name := "Restricted Border Area", type := "restricted", risk_level := 5, active := true }

/-- The location fix of the spec scenario at latitude 26.18, longitude 91.75,
inside the restricted zone. -/
def demoFix : LocationObject :=
  { coords :=
      { latitude := 26.18, longitude := 91.75
        altitude := none, accuracy := none, speed := none }
    timestamp := 1000 }

/-- A later fix for the same tourist (timestamp 2000). -/
def fixT2 : LocationObject :=
  { coords :=
      { latitude := 26.19, longitude := 91.76
        altitude := none, accuracy := none, speed := none }
    timestamp := 2000 }

/-- An earlier fix for the same tourist (timestamp 100), submitted after
fixT2. -/
def fixT1 : LocationObject :=
  { coords :=
      { latitude := 26.17, longitude := 91.73
        altitude := none, accuracy := none, speed := none }
    timestamp := 100 }

/-- The LocationData shape of the demo fix as submitted through
services/location.ts. -/
def demoLocationData : LocationData :=
  { latitude := 26.18, longitude := 91.75
    altitude := none, accuracy := none, speed := none }

end TouristMonitoring

namespace TouristMonitoring

/-- Every output of updateScore lies in the interval from 0 to 100. -/
lemma updateScore_mem_range (current target : Int) :
    0 ≤ updateScore current target ∧ updateScore current target ≤ 100 := by
  unfold updateScore clampScore
  constructor
  · exact le_max_left 0 _
  · have h : min 100 (stepToward current target maxScoreStep) ≤ 100 := min_le_left _ _
    exact max_le (by norm_num) h

/-- Every element of a score trace lies in the interval from 0 to 100. -/
lemma scoreTrace_all_mem_range (start : Int) (targets : List Int) :
    (scoreTrace start targets).all
      (fun s => decide (0 ≤ s) && decide (s ≤ 100)) = true := by
  induction targets generalizing start with
  | nil => rfl
  | cons t ts ih =>
      simp only [scoreTrace, List.all_cons, Bool.and_eq_true, decide_eq_true_eq]
      refine ⟨⟨(updateScore_mem_range start t).1, (updateScore_mem_range start t).2⟩, ?_⟩
      exact ih (updateScore start t)

end TouristMonitoring

namespace TouristMonitoring

/-- C1: starting from the initial safety score of 50 assigned by handleRegister
at registration, after every update of any sequence of score updates the
tourist safety score is an integer in the interval from 0 to 100. -/
theorem safetyScore_always_in_range (targets : List Int) :
    (0 ≤ handleRegisterSafetyScore ∧ handleRegisterSafetyScore ≤ 100)
      ∧ (scoreTrace handleRegisterSafetyScore targets).all
          (fun s => decide (0 ≤ s) && decide (s ≤ 100)) = true := by
  exact ⟨by decide, scoreTrace_all_mem_range handleRegisterSafetyScore targets⟩

/-- C6: a single safety-score update from a score inside the interval from 0 to
100 moves the score by at most the configured maximum step of 10 points. -/
theorem updateScore_bounded_step (current target : Int)
    (h0 : 0 ≤ current) (h1 : current ≤ 100) :
    |updateScore current target - current| ≤ maxScoreStep := by
  unfold updateScore clampScore stepToward maxScoreStep
  rw [abs_le]
  rcases le_or_lt current target with hct | hct
  · rcases lt_or_le current target with hlt | hle
    · simp only [if_pos hlt]
      rw [max_def, min_def, min_def]
      split_ifs <;> omega
    · have heq : current = target := le_antisymm hct hle
      simp only [if_neg (by omega : ¬ current < target)]
      rw [max_def, min_def, max_def]
      split_ifs <;> omega
  · simp only [if_neg (by omega : ¬ current < target)]
    rw [max_def, min_def, max_def]
    split_ifs <;> omega

/-- Witness for C6: updating a score of 95 toward a target of 200 moves it by
at most 10 points (to 100). -/
theorem updateScore_bounded_step_witness :
    0 ≤ (95 : Int) ∧ (95 : Int) ≤ 100
      ∧ |updateScore 95 200 - 95| ≤ maxScoreStep :=
  ⟨by decide, by decide, updateScore_bounded_step 95 200 (by decide) (by decide)⟩

/-- C2: refutation record. Entry of the demo fix into the active restricted
risk level 5 zone requires an alert per the spec threshold rule, yet
checkForHazards creates no alert there, and indeed creates no alert for any
query results and any fix: every branch returns an empty alert list. -/
theorem checkForHazards_produces_no_alert :
    specRequiresAlertOnEntry 3 zoneZ = true
      ∧ (checkForHazards (Except.ok [zoneZ]) (Except.ok []) demoFix).alertsCreated = []
      ∧ ∀ gq hq loc, (checkForHazards gq hq loc).alertsCreated = [] := by
  refine ⟨by decide, rfl, ?_⟩
  intro gq hq loc
  cases gq <;> cases hq <;> rfl

/-- C3: counterexample. Two identical geofence entry alerts for the same
tourist, zone and transition (on the reachable insert path, where the location
lookup returned null) both insert, leaving two non-resolved alerts with the
same dedup key — the at-most-one-active-alert invariant is false and no
suppression happens. -/
theorem duplicate_active_alerts_counterexample :
    ∃ db1 db2,
      createGeofenceAlert true [] none "tourist-1"
          zoneZ.name zoneZ.type "entered" = Except.ok db1
        ∧ createGeofenceAlert true db1 none "tourist-1"
            zoneZ.name zoneZ.type "entered" = Except.ok db2
        ∧ activeAlertCount db2 "tourist-1" zoneZ.name "entered" = 2
        ∧ ¬ activeAlertCount db2 "tourist-1" zoneZ.name "entered" ≤ 1 := by
  refine ⟨_, _, rfl, rfl, by decide, by decide⟩

/-- C3 amended: createSafetyAlert performs no duplicate check, so every
successful geofence entry call — the insert runs only when the location lookup
returned null, a non-null location throwing a TypeError first — increases the
number of active alerts for its (tourist, zone, transition) dedup key by
exactly one, whatever alerts already exist. -/
theorem createGeofenceAlert_appends_without_dedup (db : List NotificationRow)
    (touristId zoneName zoneType : String) :
    ∃ db2,
      createGeofenceAlert true db none touristId zoneName zoneType "entered"
          = Except.ok db2
        ∧ activeAlertCount db2 touristId zoneName "entered"
            = activeAlertCount db touristId zoneName "entered" + 1 := by
  refine ⟨_, rfl, ?_⟩
  simp [activeAlertCount, createGeofenceAlert, createSafetyAlert,
    matchesDedupKey, List.filter_append]

/-- C4: counterexample. After the later fix fixT2 is logged, submitting the
stale fix fixT1 (earlier timestamp) is not rejected: its row is inserted as
well, so state derived from the stale fix survives alongside the later one. -/
theorem stale_fix_not_rejected_counterexample :
    fixT1.timestamp < fixT2.timestamp
      ∧ logLocationToDatabase (logLocationToDatabase [] "tourist-1" fixT2)
          "tourist-1" fixT1
          = [locationRow "tourist-1" fixT2, locationRow "tourist-1" fixT1]
      ∧ locationRow "tourist-1" fixT1
          ∈ logLocationToDatabase (logLocationToDatabase [] "tourist-1" fixT2)
              "tourist-1" fixT1 := by
  refine ⟨by decide, rfl, ?_⟩
  simp [logLocationToDatabase]

/-- C4 amended: logLocationToDatabase performs no per-tourist timestamp check;
a fix whose timestamp is earlier than an already-processed later fix is still
inserted, and both rows survive. -/
theorem logLocationToDatabase_inserts_stale_fix (db : List LocationLogRow)
    (touristId : String) (later stale : LocationObject)
    (_h : stale.timestamp < later.timestamp) :
    locationRow touristId later
        ∈ logLocationToDatabase (logLocationToDatabase db touristId later)
            touristId stale
      ∧ locationRow touristId stale
          ∈ logLocationToDatabase (logLocationToDatabase db touristId later)
              touristId stale := by
  simp [logLocationToDatabase]

/-- Witness for the amended C4 statement at the concrete out-of-order pair
fixT2 then fixT1. -/
theorem logLocationToDatabase_inserts_stale_fix_witness :
    fixT1.timestamp < fixT2.timestamp
      ∧ (locationRow "tourist-1" fixT2
            ∈ logLocationToDatabase (logLocationToDatabase [] "tourist-1" fixT2)
                "tourist-1" fixT1
          ∧ locationRow "tourist-1" fixT1
              ∈ logLocationToDatabase (logLocationToDatabase [] "tourist-1" fixT2)
                  "tourist-1" fixT1) :=
  ⟨by decide,
    logLocationToDatabase_inserts_stale_fix [] "tourist-1" fixT2 fixT1 (by decide)⟩

/-- C5: counterexample. Entering the restricted zone of risk level 5 creates an
alert of priority high, while the claimed severity mapping demands critical for
risk level 5 — the created priority does not follow the risk level mapping. -/
theorem severity_ignores_risk_level_counterexample :
    ∃ row,
      createGeofenceAlert true [] none "tourist-1" zoneZ.name zoneZ.type "entered"
          = Except.ok [row]
        ∧ row.priority = "high"
        ∧ specSeverityOfRisk zoneZ.risk_level = "critical"
        ∧ row.priority ≠ specSeverityOfRisk zoneZ.risk_level := by
  refine ⟨_, rfl, rfl, by decide, by decide⟩

/-- C5 amended: alert priority is independent of the numeric zone risk level.
On the reachable insert path (location lookup returned null; a non-null
location throws a TypeError before the insert), createGeofenceAlert assigns
priority high exactly when the geofence type is restricted and normal
otherwise; createHazardAlert maps the hazard severity string high to critical,
medium to high and anything else to normal; and every successful call inserts
an alert regardless of severity. -/
theorem alert_priority_actual_mapping (db : List NotificationRow)
    (touristId geofenceName geofenceType action hazardTitle hazardType severity : String)
    (distance : ℚ) :
    (∃ row,
      createGeofenceAlert true db none touristId geofenceName geofenceType action
          = Except.ok (db ++ [row])
        ∧ row.priority = (if geofenceType == "restricted" then "high" else "normal"))
    ∧ (∃ row,
      createHazardAlert true db none touristId hazardTitle hazardType severity distance
          = Except.ok (db ++ [row])
        ∧ row.priority =
            (if severity == "high" then "critical"
             else if severity == "medium" then "high" else "normal")) := by
  exact ⟨⟨_, rfl, rfl⟩, ⟨_, rfl, rfl⟩⟩

/-- C7: counterexample. Submitting the exact same location fix a second time is
not idempotent: the client state after two submissions differs from the state
after one, because a second identical row is inserted into location_logs. -/
theorem resubmission_not_idempotent_counterexample :
    submitFix (submitFix ⟨[], 0⟩ "tourist-1" demoLocationData 5000)
        "tourist-1" demoLocationData 5000
      ≠ submitFix ⟨[], 0⟩ "tourist-1" demoLocationData 5000
    ∧ (submitFix (submitFix ⟨[], 0⟩ "tourist-1" demoLocationData 5000)
        "tourist-1" demoLocationData 5000).location_logs.length = 2 := by
  constructor
  · intro h
    have h2 := congrArg (fun s => s.location_logs.length) h
    simp [submitFix, logLocation] at h2
  · rfl

/-- C7 amended: submitting the same fix twice produces no notification and no
transition event on either submission (the pipeline emits none at all), but it
is not a no-op: each submission appends another identical location-log row. -/
theorem submitFix_duplicate_effect (st : ClientState) (touristId : String)
    (locationData : LocationData) (now1 now2 : Int) :
    (submitFix (submitFix st touristId locationData now1)
        touristId locationData now2).notifications_sent = st.notifications_sent
      ∧ (submitFix (submitFix st touristId locationData now1)
          touristId locationData now2).location_logs
          = st.location_logs
              ++ [logLocationRow touristId locationData now1,
                  logLocationRow touristId locationData now2] := by
  simp [submitFix, logLocation]

/-- C10: refutation record. When no location is obtained, triggerPanicAlert
does throw with nothing inserted, as claimed; but when a location is obtained,
the record construction reads the coords property that the flat LocationData
from services/location.ts does not have, so the call throws a TypeError before
the insert — every call of triggerPanicAlert throws and no alert row is ever
created, even though the record literal in the source (intendedEmergencyAlert)
does carry severity critical, priority 1 and status active for every alert
type. -/
theorem triggerPanicAlert_always_throws (touristId alertType : String)
    (db : List EmergencyAlertRow) (locationData : LocationData) (insertOk : Bool) :
    triggerPanicAlert none insertOk db touristId alertType
        = Except.error "Unable to get current location"
      ∧ triggerPanicAlert (some locationData) insertOk db touristId alertType
          = Except.error "TypeError: location.coords is undefined"
      ∧ (∀ loc insertOk2 a db2,
          triggerPanicAlert loc insertOk2 db touristId alertType
            ≠ Except.ok (a, db2))
      ∧ (intendedEmergencyAlert touristId alertType locationData).severity = "critical"
      ∧ (intendedEmergencyAlert touristId alertType locationData).priority = 1
      ∧ (intendedEmergencyAlert touristId alertType locationData).status = "active" := by
  refine ⟨rfl, rfl, ?_, rfl, rfl, rfl⟩
  intro loc insertOk2 a db2
  cases loc <;> simp [triggerPanicAlert]

end TouristMonitoring

namespace TouristMonitoring

/-- C8: the configured safety-score weights sum exactly to 1. -/
theorem safety_score_weights_sum_to_one :
    tourist_safety_score_weights.location_risk
      + tourist_safety_score_weights.weather
      + tourist_safety_score_weights.group_size
      + tourist_safety_score_weights.time_of_day
      + tourist_safety_score_weights.route_deviation = 1 := by
  norm_num [tourist_safety_score_weights]

/-- C9: getCurrentLocation in locationTracking.ts never propagates a position
error: on failure it returns the cached last-known location (none when nothing
is cached) and leaves the tracking state unchanged, and on success it returns
the fresh location after storing it in the cache. -/
theorem getCurrentLocation_cache_semantics (st : LocationTrackingState)
    (e : String) (location : LocationObject) :
    getCurrentLocation (Except.error e) st = (getLastKnownLocation st, st)
      ∧ (getCurrentLocation (Except.ok location) st).1 = some location
      ∧ getLastKnownLocation (getCurrentLocation (Except.ok location) st).2
          = some location := by
  refine ⟨rfl, rfl, rfl⟩

end TouristMonitoring
